import Mathlib

/-!
Verification of the darner-queue-go client library.

Shallow embedding of the Go sources:
  * `backoff.go`            — exponential backoff controller (`Backoff`)
  * `client.go`             — single-endpoint client (`Client`)
  * the cluster writer file — round-robin writer (`ClusterWriter`)
  * `memcache/stats.go`     — stats parsing and the cluster reader (`ClusterReader`)

Modelling conventions:
  * `time.Duration` (an `int64` count of nanoseconds) is modelled as `Int`;
    `uint64` as `Nat` reduced `% 2^64` where overflow matters; Go's `int32(x)`
    conversion as two's-complement wrapping on `Int`.
  * Go `float64` arithmetic in `Backoff.ForAttempt` is modelled with exact
    rational arithmetic (`ℚ`); the float-valued `attempt` counter only ever
    holds the naturals 0,1,2,… (it starts at 0, is incremented by 1, and is
    reset to 0), so it is modelled as `Nat`.
  * Go's `float64 → int64` conversion truncates toward zero; the converted
    quantity here is always nonnegative, so it is `Int.floor`.
  * Goroutine-local state is passed explicitly; state reachable through the
    shared `*ClusterReader` receiver is a single shared record.
-/

namespace DarnerQueue

/-- `time.Millisecond`, in nanoseconds (`time.Duration` is modelled as `Int`). -/
def millisecond : Int := 1000000

/-- `time.Second`, in nanoseconds. -/
def second : Int := 1000000000

/-- `time.Minute`, in nanoseconds. -/
def minute : Int := 60 * second

/-! ## backoff.go -/

/-- `Backoff` from `backoff.go`: `attempt` is a `float64` counter that only
ever holds natural-number values (modelled as `Nat`); `Factor` is `float64`
(modelled as `ℚ`); `Min`/`Max` are `time.Duration` (nanoseconds, `Int`). -/
structure Backoff where
  attempt : Nat
  Factor : ℚ
  Min : Int
  Max : Int

/-- The local `min` of `Backoff.ForAttempt` (backoff.go lines 22–25):
`b.Min`, defaulted to `100 * time.Millisecond` when not positive. -/
def effectiveMin (b : Backoff) : Int :=
  if b.Min ≤ 0 then 100 * millisecond else b.Min

/-- The local `max` of `Backoff.ForAttempt` (backoff.go lines 26–29):
`b.Max`, defaulted to `10 * time.Second` when not positive. -/
def effectiveMax (b : Backoff) : Int :=
  if b.Max ≤ 0 then 10 * second else b.Max

/-- The local `factor` of `Backoff.ForAttempt` (backoff.go lines 33–36):
`b.Factor`, defaulted to `2` when not positive. -/
def effectiveFactor (b : Backoff) : ℚ :=
  if b.Factor ≤ 0 then 2 else b.Factor

/-- The Go constant `maxInt64 = float64(math.MaxInt64 - 512)`.
`math.MaxInt64 - 512 = 2^63 - 513` rounds (to nearest float64) to
`2^63 - 1024`, which is exactly representable. -/
def maxInt64F : ℚ := 2 ^ 63 - 1024

/-- `Backoff.ForAttempt` (backoff.go lines 21–52).  The locals `min`, `max`,
`factor` are `effectiveMin`, `effectiveMax`, `effectiveFactor`;
`durf = minf * math.Pow(factor, attempt)` is exact rational arithmetic; the
`time.Duration(durf)` conversion truncates toward zero, which on the
nonnegative `durf` reached here is `Int.floor`. -/
def Backoff.ForAttempt (b : Backoff) (attempt : Nat) : Int :=
  if effectiveMin b ≥ effectiveMax b then effectiveMax b
  else if ((effectiveMin b : ℚ) * effectiveFactor b ^ attempt) > maxInt64F then effectiveMax b
  else if Int.floor ((effectiveMin b : ℚ) * effectiveFactor b ^ attempt) < effectiveMin b then
    effectiveMin b
  else if Int.floor ((effectiveMin b : ℚ) * effectiveFactor b ^ attempt) > effectiveMax b then
    effectiveMax b
  else Int.floor ((effectiveMin b : ℚ) * effectiveFactor b ^ attempt)

/-- `Backoff.Duration` (backoff.go lines 13–17): returns the wait for the
current attempt counter and increments it.  Modelled state-passing style as
(returned duration, new state). -/
def Backoff.DurationStep (b : Backoff) : Int × Backoff :=
  (b.ForAttempt b.attempt, { b with attempt := b.attempt + 1 })

/-- `Backoff.Reset` (backoff.go lines 54–56). -/
def Backoff.Reset (b : Backoff) : Backoff :=
  { b with attempt := 0 }

lemma effectiveMin_pos (b : Backoff) : 0 < effectiveMin b := by
  unfold effectiveMin
  split_ifs with h
  · decide
  · omega

/-- C5 (amended): whenever the effective minimum does not exceed the effective
maximum, `ForAttempt` stays inside `[effectiveMin, effectiveMax]`, for every
attempt count. -/
theorem C5_forAttempt_within_bounds (b : Backoff) (n : Nat)
    (h : effectiveMin b ≤ effectiveMax b) :
    effectiveMin b ≤ b.ForAttempt n ∧ b.ForAttempt n ≤ effectiveMax b := by
  unfold Backoff.ForAttempt
  split_ifs <;> constructor <;> omega

/-- C5 witness: the all-zero (fully defaulted) configuration at attempt 0. -/
theorem C5_forAttempt_within_bounds_witness :
    effectiveMin ⟨0, 0, 0, 0⟩ ≤ effectiveMax ⟨0, 0, 0, 0⟩ ∧
      (effectiveMin ⟨0, 0, 0, 0⟩ ≤ Backoff.ForAttempt ⟨0, 0, 0, 0⟩ 0 ∧
        Backoff.ForAttempt ⟨0, 0, 0, 0⟩ 0 ≤ effectiveMax ⟨0, 0, 0, 0⟩) :=
  ⟨by decide, C5_forAttempt_within_bounds ⟨0, 0, 0, 0⟩ 0 (by decide)⟩

/-- C5 counterexample: with `Min = 10s` and `Max = 1ms` both positive,
`effectiveMin = 10s > 1ms = effectiveMax`, and `ForAttempt 0` returns the
maximum `1ms`, which does not lie in the (empty) interval
`[effectiveMin, effectiveMax]` — the claim fails as stated for this
configuration. -/
theorem C5_forAttempt_within_bounds_counterexample :
    ¬ (effectiveMin ⟨0, 0, 10 * second, millisecond⟩ ≤
          Backoff.ForAttempt ⟨0, 0, 10 * second, millisecond⟩ 0 ∧
        Backoff.ForAttempt ⟨0, 0, 10 * second, millisecond⟩ 0 ≤
          effectiveMax ⟨0, 0, 10 * second, millisecond⟩) := by
  intro hcl
  have h1 : effectiveMin ⟨0, 0, 10 * second, millisecond⟩ = 10 * second := by decide
  have h2 : Backoff.ForAttempt ⟨0, 0, 10 * second, millisecond⟩ 0 = millisecond := by
    unfold Backoff.ForAttempt
    split_ifs with hge
    · decide
    all_goals exact absurd (by decide) hge
  rw [h1, h2] at hcl
  exact absurd hcl.1 (by decide)

/-- C6: with effective factor above 1 and effective min below effective max,
`ForAttempt` is non-decreasing in the attempt count. -/
theorem C6_forAttempt_monotone (b : Backoff) (n : Nat)
    (hf : 1 < effectiveFactor b) (hmm : effectiveMin b < effectiveMax b) :
    b.ForAttempt n ≤ b.ForAttempt (n + 1) := by
  have hmin : (0 : ℚ) < (effectiveMin b : ℚ) := by
    exact_mod_cast effectiveMin_pos b
  have hpow : (effectiveFactor b : ℚ) ^ n ≤ effectiveFactor b ^ (n + 1) :=
    pow_le_pow_right₀ (le_of_lt hf) (Nat.le_succ n)
  have hd : ((effectiveMin b : ℚ) * effectiveFactor b ^ n) ≤
      ((effectiveMin b : ℚ) * effectiveFactor b ^ (n + 1)) :=
    mul_le_mul_of_nonneg_left hpow (le_of_lt hmin)
  have hfl : Int.floor ((effectiveMin b : ℚ) * effectiveFactor b ^ n) ≤
      Int.floor ((effectiveMin b : ℚ) * effectiveFactor b ^ (n + 1)) :=
    Int.floor_le_floor hd
  unfold Backoff.ForAttempt
  split_ifs <;> first
    | omega
    | (exfalso; linarith)

/-- C6 witness: the all-zero (fully defaulted) configuration
(effective factor 2, effective min 100ms, effective max 10s) at attempt 0. -/
theorem C6_forAttempt_monotone_witness :
    (1 < effectiveFactor ⟨0, 0, 0, 0⟩ ∧ effectiveMin ⟨0, 0, 0, 0⟩ < effectiveMax ⟨0, 0, 0, 0⟩) ∧
      Backoff.ForAttempt ⟨0, 0, 0, 0⟩ 0 ≤ Backoff.ForAttempt ⟨0, 0, 0, 0⟩ 1 :=
  ⟨⟨by decide, by decide⟩, C6_forAttempt_monotone ⟨0, 0, 0, 0⟩ 0 (by decide) (by decide)⟩

/-! ## client.go -/

/-- `QueueItem` (referenced in client.go line 28 with its `Message` field). -/
structure QueueItem where
  Message : String
deriving DecidableEq

/-- `Client` (client.go lines 10–13).  `Timeout` is the struct field set by
`NewClient`; `mcTimeout` records the wrapped memcache client's `Timeout`
(socket timeout, set in client.go line 17 and not otherwise used here);
`addr` records the `host:port` address string built in client.go line 16. -/
structure Client where
  Timeout : Int
  mcTimeout : Int
  addr : String

/-- `NewClient` (client.go lines 15–23): `mc.Timeout = timeout seconds * 2`,
`Client.Timeout = timeout seconds`. -/
def NewClient (host : String) (port timeout : Int) : Client :=
  { Timeout := timeout * second
    mcTimeout := timeout * second * 2
    addr := host ++ ":" ++ toString port }

/-- Go's `int32(x)` conversion from `int64`: two's-complement wrap to 32 bits. -/
def int32cast (x : Int) : Int :=
  (x + 2 ^ 31) % 2 ^ 32 - 2 ^ 31

/-- The memcache key sent by `Client.Get` (client.go line 26):
`fmt.Sprintf("%s/t=%d", queueName, int32(c.Timeout/time.Millisecond))`.
Go's `int64` division truncates toward zero (`Int.tdiv`).  The `maxItems` and
`autoAbort` parameters of `Client.Get` (client.go line 25) do not occur in
the request at all. -/
def Client.GetKeySent (c : Client) (queueName : String) (_maxItems _autoAbort : Int) : String :=
  queueName ++ "/t=" ++ toString (int32cast (Int.tdiv c.Timeout millisecond))

/-! ## ClusterWriter -/

/-- `2^64`: the wrap modulus of Go's `uint64` counter. -/
def U64 : Nat := 2 ^ 64

/-- `ClusterWriter` (cluster writer file, lines 9–17): the round-robin
`offset` is a `uint64` (a `Nat` kept below `2^64`); the `SetTimeout`,
`AbortTimeout` and `Backoff` fields play no role in `Write` and are omitted. -/
structure ClusterWriter where
  clients : List Client
  offset : Nat

/-- The outcome of one `ClusterWriter.Write` call: either the configuration
error built when no client is available (writer file line 30), or the
delegated `Set` network call `c.Set(queueName, item)` on the selected client
(writer file line 28), whose own error is propagated unchanged. -/
inductive WriteOutcome where
  | configError (msg : String)
  | delegated (clientIdx : Nat) (queueName item : String)
deriving DecidableEq

/-- `ClusterWriter.getClient` (writer file lines 35–42), modelled
state-passing style and returning the index of the selected client
(`w.clients[i]` in the source).  `atomic.AddUint64(&w.offset, 1)` returns the
incremented value, wrapping at `2^64`; when the client list is empty the
counter is not touched. -/
def ClusterWriter.getClientStep (w : ClusterWriter) : Option Nat × ClusterWriter :=
  let n := w.clients.length
  if n = 0 then (none, w)
  else
    let off := (w.offset + 1) % U64
    (some (off % n), { w with offset := off })

/-- `ClusterWriter.Write` (writer file lines 25–33). -/
def ClusterWriter.WriteStep (w : ClusterWriter) (queueName item : String) :
    WriteOutcome × ClusterWriter :=
  match w.getClientStep with
  | (none, w') => (.configError "[DarnerQueue]: Unable to get a client from the pool.", w')
  | (some i, w') => (.delegated i queueName item, w')

/-- `m` consecutive `Write` calls on one `ClusterWriter`. -/
def ClusterWriter.writeRun : ClusterWriter → String → String → Nat →
    List WriteOutcome × ClusterWriter
  | w, _, _, 0 => ([], w)
  | w, q, it, m + 1 =>
    let step := w.WriteStep q it
    let rest := step.2.writeRun q it m
    (step.1 :: rest.1, rest.2)

/-- The client index of a delegated write, if any. -/
def selIdx : WriteOutcome → Option Nat
  | .configError _ => none
  | .delegated i _ _ => some i

/-- The endpoint indices selected by `m` consecutive `Write` calls. -/
def ClusterWriter.writeSelections (w : ClusterWriter) (q it : String) (m : Nat) : List Nat :=
  ((w.writeRun q it m).1).filterMap selIdx

/-- C4: `Write` on a writer with an empty endpoint list returns the
configuration error and delegates no `Set` call to any client, for every
queue name and payload (and any counter state). -/
theorem C4_write_empty_config_error (o : Nat) (q it : String) :
    (ClusterWriter.WriteStep ⟨[], o⟩ q it).1 =
      .configError "[DarnerQueue]: Unable to get a client from the pool." ∧
    ∀ i qn itm, (ClusterWriter.WriteStep ⟨[], o⟩ q it).1 ≠ .delegated i qn itm := by
  constructor
  · rfl
  · intro i qn itm h
    simp [ClusterWriter.WriteStep, ClusterWriter.getClientStep] at h

lemma writeRun_eq (q it : String) (m : Nat) :
    ∀ (w : ClusterWriter), 0 < w.clients.length → w.offset + m < U64 →
      (w.writeRun q it m).1 =
        (List.range m).map
          (fun j => .delegated ((w.offset + 1 + j) % w.clients.length) q it) := by
  induction m with
  | zero => intro w _ _; simp [ClusterWriter.writeRun]
  | succ m ih =>
    intro w hk hwrap
    have hn : w.clients.length ≠ 0 := Nat.pos_iff_ne_zero.mp hk
    have hoff : (w.offset + 1) % U64 = w.offset + 1 := Nat.mod_eq_of_lt (by omega)
    have hstep : w.WriteStep q it =
        (.delegated ((w.offset + 1) % w.clients.length) q it,
          { w with offset := w.offset + 1 }) := by
      simp [ClusterWriter.WriteStep, ClusterWriter.getClientStep, hn, hoff]
    have ih' := ih { w with offset := w.offset + 1 } (by simpa using hk) (by simp; omega)
    simp only [ClusterWriter.writeRun, hstep, ih']
    rw [List.range_succ_eq_map]
    simp [List.map_map, Function.comp]
    intro a _
    congr 1
    omega

lemma mod_two_bound (k x : Nat) (hx : x < 2 * k) :
    x % k = if x < k then x else x - k := by
  split_ifs with h
  · exact Nat.mod_eq_of_lt h
  · rw [Nat.mod_eq_sub_mod (by omega)]
    exact Nat.mod_eq_of_lt (by omega)

lemma shift_mod_iff (k c j r : Nat) (hk : 0 < k) (hr : r < k) :
    ((c + j) % k = r) ↔ (j % k = (r + k - c % k) % k) := by
  have ha : c % k < k := Nat.mod_lt _ hk
  have ht : j % k < k := Nat.mod_lt _ hk
  have h1 : (c + j) % k = (c % k + j % k) % k := Nat.add_mod c j k
  have h2 : (c % k + j % k) % k =
      if c % k + j % k < k then c % k + j % k else c % k + j % k - k :=
    mod_two_bound k _ (by omega)
  have h3 : (r + k - c % k) % k =
      if r + k - c % k < k then r + k - c % k else r + k - c % k - k :=
    mod_two_bound k _ (by omega)
  rw [h1, h2, h3]
  split_ifs <;> omega

lemma count_range_map (f : Nat → Nat) (r : Nat) (l : List Nat) :
    (l.map f).count r = l.countP (fun j => f j == r) := by
  induction l with
  | nil => rfl
  | cons x xs ih =>
    simp [List.count_cons, List.countP_cons, ih, beq_iff_eq]

lemma countP_eq_natCount (p : Nat → Prop) [DecidablePred p] (m : Nat) :
    (List.range m).countP (fun j => decide (p j)) = Nat.count p m := rfl

lemma ceil_div_eq (m k : Nat) (hk : 0 < k) :
    (m + k - 1) / k = m / k + (if m % k = 0 then 0 else 1) := by
  have hdm := Nat.div_add_mod m k
  set q := m / k
  set s := m % k
  have hs : s < k := Nat.mod_lt _ hk
  have hm : m + k - 1 = k * q + (s + k - 1) := by omega
  rw [hm, Nat.mul_add_div hk]
  split_ifs with h
  · have : (s + k - 1) / k = 0 := Nat.div_eq_of_lt (by omega)
    omega
  · have h1 : s + k - 1 = (s - 1) + k := by omega
    have h2 : (s - 1) / k = 0 := Nat.div_eq_of_lt (by omega)
    rw [h1, Nat.add_div_right _ hk]
    omega

/-- Any window of `m` consecutive residues `(c+j) % k` hits each residue
class `⌊m/k⌋` to `⌈m/k⌉` times. -/
lemma count_consecutive_mod (k c r m : Nat) (hk : 0 < k) (hr : r < k) :
    m / k ≤ (List.range m).countP (fun j => (c + j) % k == r) ∧
      (List.range m).countP (fun j => (c + j) % k == r) ≤ (m + k - 1) / k := by
  have hv : (r + k - c % k) % k < k := Nat.mod_lt _ hk
  have hcount : (List.range m).countP (fun j => (c + j) % k == r) =
      Nat.count (fun j => j % k = (r + k - c % k) % k) m := by
    rw [← countP_eq_natCount]
    apply List.countP_congr
    intro a _
    simp only [beq_iff_eq, decide_eq_true_eq]
    exact shift_mod_iff k c a r hk hr
  have hmodeq : Nat.count (fun j => j % k = (r + k - c % k) % k) m =
      Nat.count (· ≡ (r + k - c % k) % k [MOD k]) m := by
    unfold Nat.count
    apply List.countP_congr
    intro a _
    simp only [decide_eq_true_eq]
    unfold Nat.ModEq
    rw [Nat.mod_eq_of_lt hv]
  rw [hcount, hmodeq, Nat.count_modEq_card m hk ((r + k - c % k) % k)]
  rw [ceil_div_eq m k hk]
  have hm2 : (r + k - c % k) % k % k = (r + k - c % k) % k := Nat.mod_eq_of_lt hv
  rw [hm2]
  constructor
  · omega
  · split_ifs with h1 h2 <;> omega

lemma succ_mod (a k : Nat) : (a + 1) % k = (a % k + 1) % k := by
  conv_lhs => rw [Nat.add_mod]
  conv_rhs => rw [Nat.add_mod, Nat.mod_mod_of_dvd a (dvd_refl k)]

lemma writeSelections_eq (w : ClusterWriter) (q it : String) (m k : Nat)
    (hk : w.clients.length = k) (hk0 : 0 < k) (hwrap : w.offset + m < U64) :
    w.writeSelections q it m = (List.range m).map (fun j => (w.offset + 1 + j) % k) := by
  unfold ClusterWriter.writeSelections
  rw [writeRun_eq q it m w (by omega) hwrap, hk]
  rw [List.filterMap_map]
  have hcomp : selIdx ∘ (fun j => WriteOutcome.delegated ((w.offset + 1 + j) % k) q it) =
      some ∘ (fun j => (w.offset + 1 + j) % k) := rfl
  rw [hcomp, List.filterMap_eq_map]

/-- C7 (amended): as long as the `uint64` counter does not wrap inside the
window, `m` consecutive `Write` calls on a writer with `k ≥ 1` endpoints
select each endpoint index between `⌊m/k⌋` and `⌈m/k⌉` times, and consecutive
selections walk the endpoint list cyclically (`next = (prev + 1) % k`). -/
theorem C7_round_robin_window (w : ClusterWriter) (q it : String) (m k r : Nat)
    (hk : w.clients.length = k) (hk0 : 0 < k)
    (hwrap : w.offset + m < U64) (hr : r < k) :
    (m / k ≤ (w.writeSelections q it m).count r ∧
      (w.writeSelections q it m).count r ≤ (m + k - 1) / k) ∧
    (∀ j, j + 1 < m → (w.writeSelections q it m)[j + 1]? =
      ((w.writeSelections q it m)[j]?).map (fun a => (a + 1) % k)) := by
  have hsel := writeSelections_eq w q it m k hk hk0 hwrap
  constructor
  · rw [hsel, count_range_map]
    exact count_consecutive_mod k (w.offset + 1) r m hk0 hr
  · intro j hj
    rw [hsel]
    simp only [List.getElem?_map, List.getElem?_range, hj, Nat.lt_of_succ_lt hj]
    simp only [Option.map_some']
    congr 1
    rw [show w.offset + 1 + (j + 1) = (w.offset + 1 + j) + 1 by omega]
    exact succ_mod _ _

/-- C7 witness: a fresh 3-endpoint writer, 4 writes: each endpoint is hit
once or twice and the walk is cyclic. -/
theorem C7_round_robin_window_witness :
    (({ clients := [NewClient "a" 1 1, NewClient "b" 1 1, NewClient "c" 1 1],
          offset := 0 } : ClusterWriter).clients.length = 3 ∧ 0 < 3 ∧
        (0 : Nat) + 4 < U64 ∧ (0 : Nat) < 3) ∧
      ((4 / 3 ≤ (ClusterWriter.writeSelections
          { clients := [NewClient "a" 1 1, NewClient "b" 1 1, NewClient "c" 1 1],
            offset := 0 } "q" "x" 4).count 0 ∧
        (ClusterWriter.writeSelections
          { clients := [NewClient "a" 1 1, NewClient "b" 1 1, NewClient "c" 1 1],
            offset := 0 } "q" "x" 4).count 0 ≤ (4 + 3 - 1) / 3) ∧
      (∀ j, j + 1 < 4 → (ClusterWriter.writeSelections
          { clients := [NewClient "a" 1 1, NewClient "b" 1 1, NewClient "c" 1 1],
            offset := 0 } "q" "x" 4)[j + 1]? =
        ((ClusterWriter.writeSelections
          { clients := [NewClient "a" 1 1, NewClient "b" 1 1, NewClient "c" 1 1],
            offset := 0 } "q" "x" 4)[j]?).map (fun a => (a + 1) % 3))) :=
  ⟨⟨rfl, by decide, by decide, by decide⟩,
    C7_round_robin_window
      { clients := [NewClient "a" 1 1, NewClient "b" 1 1, NewClient "c" 1 1], offset := 0 }
      "q" "x" 4 3 0 rfl (by decide) (by decide) (by decide)⟩

/-- C7 counterexample: with 3 endpoints and the counter two steps from its
`uint64` wrap (reachable after `2^64 - 2` prior writes), two consecutive
writes select endpoint 0 twice — more than `⌈2/3⌉ = 1` — because
`2^64 - 1 ≡ 0` and the wrapped counter value `0 ≡ 0 (mod 3)`. -/
theorem C7_round_robin_window_counterexample :
    (ClusterWriter.writeSelections
        ⟨[NewClient "a" 1 1, NewClient "b" 1 1, NewClient "c" 1 1], U64 - 2⟩ "q" "x" 2).count 0
        = 2 ∧
      ¬ ((ClusterWriter.writeSelections
        ⟨[NewClient "a" 1 1, NewClient "b" 1 1, NewClient "c" 1 1], U64 - 2⟩
          "q" "x" 2).count 0 ≤ (2 + 3 - 1) / 3) := by
  constructor <;> decide

/-! ## ClusterReader (second half of memcache/stats.go's companion file) -/

/-- The observable state of a Go channel held in a struct field: the zero
value `nil`, an open channel made by `make`, or a closed channel. -/
inductive ChanState where
  | nilChan
  | openChan
  | closedChan
deriving DecidableEq

/-- `ClusterReader` (reader file lines 302–311).  The `Backoff` field is one
pointer shared by everything that goes through the receiver `r`. -/
structure ClusterReader where
  GetTimeout : Int
  AbortTimeout : Int
  Backoff : Backoff
  clients : List Client
  closed : ChanState

/-- `NewClusterReader` (reader file lines 313–327) with its defaults;
the `closed` channel field keeps its zero value `nil`. -/
def NewClusterReader (clients : List Client) : ClusterReader :=
  { clients := clients
    GetTimeout := 5 * second
    AbortTimeout := 1 * minute
    Backoff := { attempt := 0, Factor := 2, Min := 100 * millisecond, Max := 5 * minute }
    closed := .nilChan }

/-- The key a reader worker's fetch sends to the remote server (reader file
line 341): the worker calls `client.Get(queueName, 1, r.AbortTimeout)`, and
`Client.Get` builds the key from the client's own `Timeout` alone. -/
def ClusterReader.workerFetchKey (r : ClusterReader) (c : Client) (queueName : String) : String :=
  c.GetKeySent queueName 1 r.AbortTimeout

/-- The synchronous observable outcome of `ClusterReader.ReadIntoChannel`
(reader file lines 329–370): `r.closed = make(chan struct{})`, one worker
goroutine per client, and the function's (absent) return value — its Go
signature `func (r *ClusterReader) ReadIntoChannel(queueName string,
ch chan<- *QueueItem)` returns nothing, so `returnedError` is `none` in
every case. -/
structure ReadStartOutcome where
  closed : ChanState
  spawnedWorkers : Nat
  returnedError : Option String
deriving DecidableEq

/-- `ClusterReader.ReadIntoChannel`, synchronous part (reader file lines
329–333 and 368–369): makes the shutdown channel, spawns
`r.clients.length` workers, blocks on `r.wg.Wait()` (immediate when no
worker was spawned), and returns no value. -/
def ClusterReader.ReadIntoChannelStart (r : ClusterReader) : ReadStartOutcome :=
  { closed := .openChan
    spawnedWorkers := r.clients.length
    returnedError := none }

/-- Go's `close` builtin: panics on a nil channel and on an
already-closed channel. -/
def closeChan : ChanState → Except String ChanState
  | .nilChan => .error "close of nil channel"
  | .openChan => .ok .closedChan
  | .closedChan => .error "close of closed channel"

/-- `ClusterReader.Close` (reader file lines 372–378): when the channel
field is non-nil it is closed with the `close` builtin, then `nil` is
returned.  A Go panic is modelled as `Except.error`; a normal return as
`Except.ok (new channel state, returned error)`. -/
def CloseStep (closed : ChanState) : Except String (ChanState × Option String) :=
  match closed with
  | .nilChan => .ok (.nilChan, none)
  | st => (closeChan st).map (fun st' => (st', none))

/-- Errors returned by `Client.Get` as observed by the worker loop: the
`memcache.ErrCacheMiss` sentinel (compared via `errors.Is`, and never
wrapped by this client) or any other error. -/
inductive GoErr where
  | cacheMiss
  | other (msg : String)
deriving DecidableEq

/-- The observable effects of one reader-worker loop iteration. -/
structure StepResult where
  backoff : Backoff
  hasFailed : Bool
  pushed : Option QueueItem
  waited : Option Int

/-- One iteration of the worker loop body (reader file lines 340–358), given
the fetch's result.  `b` is the state behind the shared `r.Backoff` pointer;
`_hasFailed` is the goroutine-local flag (it only gates logging and its next
value, never the backoff or the push).  On an error that is not
`ErrCacheMiss` the worker waits `r.Backoff.Duration()` and pushes nothing;
otherwise it calls `r.Backoff.Reset()` and pushes the item iff non-nil. -/
def workerLoopIter (b : Backoff) (_hasFailed : Bool) (item : Option QueueItem)
    (err : Option GoErr) : StepResult :=
  if err ≠ none ∧ err ≠ some .cacheMiss then
    { backoff := (b.DurationStep).2, hasFailed := true, pushed := none,
      waited := some (b.DurationStep).1 }
  else
    { backoff := b.Reset, hasFailed := false, pushed := item, waited := none }

lemma workerLoopIter_failure (b : Backoff) (hf : Bool) (item : Option QueueItem) (msg : String) :
    workerLoopIter b hf item (some (.other msg)) =
      { backoff := { b with attempt := b.attempt + 1 }, hasFailed := true,
        pushed := none, waited := some (b.ForAttempt b.attempt) } := by
  unfold workerLoopIter
  rw [if_pos ⟨by simp, by simp⟩]
  simp [Backoff.DurationStep]

/-- A running reader session: the single `Backoff` behind `r.Backoff`,
shared by all workers, and each worker's goroutine-local `hasFailed` flag. -/
structure ReaderSession where
  sharedBackoff : Backoff
  hasFailed : List Bool

/-- Worker `i` performs one loop iteration: it reads and writes the shared
`r.Backoff` (every worker goroutine captures the same receiver `r`, reader
file lines 335 and 341–357) and only its own `hasFailed` flag. -/
def sessionWorkerStep (s : ReaderSession) (i : Nat) (item : Option QueueItem)
    (err : Option GoErr) : ReaderSession × StepResult :=
  let out := workerLoopIter s.sharedBackoff (s.hasFailed.getD i false) item err
  ({ sharedBackoff := out.backoff, hasFailed := s.hasFailed.set i out.hasFailed }, out)

/-- C1 (amended): all polling workers of one reader share the single
`r.Backoff` state: a failure by ANY worker `i` increments the one shared
attempt counter, a success/empty-result by ANY worker `j` resets it to 0,
and the failure wait a worker observes is identical across worker
identities — backoff state is not per-worker. -/
theorem C1_backoff_shared_amended (s : ReaderSession) (i j : Nat)
    (item : Option QueueItem) (msg : String) :
    (sessionWorkerStep s i item (some (.other msg))).1.sharedBackoff.attempt =
      s.sharedBackoff.attempt + 1 ∧
    (sessionWorkerStep s j item none).1.sharedBackoff.attempt = 0 ∧
    (sessionWorkerStep s i item (some (.other msg))).2.waited =
      (sessionWorkerStep s j item (some (.other msg))).2.waited := by
  refine ⟨?_, ?_, ?_⟩
  · simp [sessionWorkerStep, workerLoopIter_failure]
  · simp [sessionWorkerStep, workerLoopIter, Backoff.Reset]
  · simp [sessionWorkerStep, workerLoopIter_failure]

/-- C1 counterexample: two workers on one reader with the default backoff.
After worker 0's single failure, worker 1's first failure already waits
200ms (`ForAttempt 1`) instead of the 100ms (`ForAttempt 0`) it observes
when worker 0 has not acted: worker 0's operation modified the backoff
state worker 1 reads, so the states are not exclusive per worker. -/
theorem C1_backoff_shared_counterexample :
    (sessionWorkerStep
        ((sessionWorkerStep ⟨(NewClusterReader []).Backoff, [false, false]⟩ 0 none
            (some (.other "conn"))).1)
        1 none (some (.other "conn"))).2.waited = some (200 * millisecond) ∧
    (sessionWorkerStep ⟨(NewClusterReader []).Backoff, [false, false]⟩ 1 none
        (some (.other "conn"))).2.waited = some (100 * millisecond) ∧
    some ((200 : Int) * millisecond) ≠ some ((100 : Int) * millisecond) := by
  have e0 : Backoff.ForAttempt ⟨0, 2, 100 * millisecond, 5 * minute⟩ 0 = 100 * millisecond := by
    norm_num [Backoff.ForAttempt, effectiveMin, effectiveMax, effectiveFactor, maxInt64F,
      millisecond, second, minute]
  have e1 : Backoff.ForAttempt ⟨1, 2, 100 * millisecond, 5 * minute⟩ 1 = 200 * millisecond := by
    norm_num [Backoff.ForAttempt, effectiveMin, effectiveMax, effectiveFactor, maxInt64F,
      millisecond, second, minute]
  refine ⟨?_, ?_, by decide⟩
  · simp only [NewClusterReader, sessionWorkerStep, workerLoopIter_failure, e1]
  · simp only [NewClusterReader, sessionWorkerStep, workerLoopIter_failure, e0]

lemma int32cast_eq_self (y : Int) (h0 : -2 ^ 31 ≤ y) (h1 : y < 2 ^ 31) : int32cast y = y := by
  unfold int32cast
  rw [Int.emod_eq_of_lt (by omega) (by omega)]
  omega

/-- C2 (amended): the visibility timeout transmitted in a worker's fetch
request is the endpoint `Client`'s own `Timeout` converted to milliseconds —
for a client built by `NewClient` with a (reasonable) `timeout` of `t`
seconds it is `t * 1000` — independent of the reader configuration `r`; the
reader's `GetTimeout` is never transmitted. -/
theorem C2_fetch_timeout_amended (r : ClusterReader) (host : String) (port t : Int)
    (q : String) (h0 : 0 ≤ t) (h1 : t ≤ 2000000) :
    ClusterReader.workerFetchKey r (NewClient host port t) q =
      q ++ "/t=" ++ toString (t * 1000) := by
  have hdiv : Int.tdiv (t * second) millisecond = t * 1000 := by
    rw [show t * second = (t * 1000) * millisecond by unfold second millisecond; ring]
    exact Int.mul_tdiv_cancel _ (by decide)
  have hcast : int32cast (Int.tdiv (t * second) millisecond) = t * 1000 := by
    rw [hdiv]
    exact int32cast_eq_self _ (by omega) (by omega)
  simp [ClusterReader.workerFetchKey, Client.GetKeySent, NewClient, hcast]

/-- C2 witness: a client built with `timeout = 3` seconds transmits `t=3000`
whatever the reader configuration. -/
theorem C2_fetch_timeout_amended_witness :
    ((0 : Int) ≤ 3 ∧ (3 : Int) ≤ 2000000) ∧
      ClusterReader.workerFetchKey (NewClusterReader []) (NewClient "h" 22133 3) "work" =
        "work" ++ "/t=" ++ toString ((3 : Int) * 1000) :=
  ⟨⟨by decide, by decide⟩,
    C2_fetch_timeout_amended (NewClusterReader []) "h" 22133 3 "work" (by decide) (by decide)⟩

/-- C2 counterexample: with the default reader (`GetTimeout = 5s`) and an
endpoint client built with `timeout = 3` seconds, the fetch request carries
`t=3000` (the client's own timeout in ms), not the reader's
`GetTimeout`-derived `t=5000` — the claim fails for this configuration. -/
theorem C2_fetch_timeout_counterexample :
    ClusterReader.workerFetchKey (NewClusterReader [NewClient "h" 22133 3])
        (NewClient "h" 22133 3) "work" ≠
      "work" ++ "/t=" ++
        toString (Int.tdiv (NewClusterReader [NewClient "h" 22133 3]).GetTimeout
          millisecond) := by
  decide

/-- C3 (amended): `ReadIntoChannel` invoked on a reader with zero endpoints
spawns no workers and returns (immediately); no configuration error is
returned — the Go function has no error return value at all. -/
theorem C3_read_start_amended :
    (ClusterReader.ReadIntoChannelStart (NewClusterReader [])).spawnedWorkers = 0 ∧
      (ClusterReader.ReadIntoChannelStart (NewClusterReader [])).returnedError = none :=
  ⟨rfl, rfl⟩

/-- C3 counterexample: no error value is returned by the zero-endpoint
reader-start call, refuting the claim that a configuration error is
returned synchronously to its caller. -/
theorem C3_read_start_counterexample :
    ¬ ∃ e : String,
      (ClusterReader.ReadIntoChannelStart (NewClusterReader [])).returnedError = some e := by
  intro ⟨e, he⟩
  simp [ClusterReader.ReadIntoChannelStart] at he

/-- C8: in every worker-loop iteration, a fetch error other than the
cache-miss sentinel pushes nothing, waits `ForAttempt` of the current
attempt counter and increments the counter; a successful fetch or the
cache-miss sentinel resets the counter to 0, waits nothing, and pushes the
item exactly when it is non-nil. -/
theorem C8_worker_iteration (b : Backoff) (hf : Bool) (item : Option QueueItem)
    (err : Option GoErr) :
    (err ≠ none ∧ err ≠ some .cacheMiss →
      (workerLoopIter b hf item err).pushed = none ∧
      (workerLoopIter b hf item err).waited = some (b.ForAttempt b.attempt) ∧
      (workerLoopIter b hf item err).backoff.attempt = b.attempt + 1) ∧
    ((err = none ∨ err = some .cacheMiss) →
      (workerLoopIter b hf item err).backoff.attempt = 0 ∧
      (workerLoopIter b hf item err).pushed = item ∧
      (workerLoopIter b hf item err).waited = none) := by
  constructor
  · intro h
    simp [workerLoopIter, h, Backoff.DurationStep]
  · intro h
    have hcond : ¬ (err ≠ none ∧ err ≠ some .cacheMiss) := by
      rcases h with h | h <;> simp [h]
    simp [workerLoopIter, hcond, Backoff.Reset]

/-- C8 witness: a connection error pushes nothing; a clean fetch resets the
attempt counter to 0 even when it was 7. -/
theorem C8_worker_iteration_witness :
    (workerLoopIter ⟨0, 2, 0, 0⟩ false (some ⟨"m"⟩) (some (.other "conn"))).pushed = none ∧
      (workerLoopIter ⟨7, 2, 0, 0⟩ true (some ⟨"m"⟩) none).backoff.attempt = 0 :=
  ⟨((C8_worker_iteration ⟨0, 2, 0, 0⟩ false (some ⟨"m"⟩) (some (.other "conn"))).1
      ⟨by decide, by decide⟩).1,
    ((C8_worker_iteration ⟨7, 2, 0, 0⟩ true (some ⟨"m"⟩) none).2 (Or.inl rfl)).1⟩

/-- C10: once `ReadIntoChannel` has been started the shutdown channel is
open; a first `Close` returns `nil` and leaves the channel closed, and a
second `Close` hits Go's `close` builtin on an already-closed channel and
panics — `Close` is not safe to call twice. -/
theorem C10_close_second_call_panics :
    (ClusterReader.ReadIntoChannelStart (NewClusterReader [NewClient "h" 1 1])).closed =
        ChanState.openChan ∧
      CloseStep ChanState.openChan = .ok (ChanState.closedChan, none) ∧
      CloseStep ChanState.closedChan = .error "close of closed channel" :=
  ⟨rfl, rfl, rfl⟩

/-! ## memcache/stats.go — stats parsing

Go strings/byte-slices are modelled as `List Char` (the protocol is ASCII);
`String.mk`/`String.data` convert at the boundary.  Lean's own `String`
iteration primitives are avoided on the computation path so every definition
evaluates by kernel reduction. -/

/-- The two possible failures of `parseSetStatValue`: the `errUnknownStat`
sentinel (stats.go line 34) or an ordinary parse error. -/
inductive StatErr where
  | unknownStat
  | parseError (msg : String)
deriving DecidableEq

/-- `Queue` (stats.go lines 71–76). -/
structure Queue where
  Name : String
  Items : Nat
  Waiters : Nat
  OpenTransactions : Nat
deriving DecidableEq

/-- `ServerStats` (stats.go lines 79–107).  `uint32`/`uint64` fields are
`Nat`s (kept in range by the bounded parser); `Errs` keeps the error
messages; the Go maps `UnknownStats` and `Queues` are association lists. -/
structure ServerStats where
  ServerErr : Option String
  Errs : List String
  UnknownStats : List (String × String)
  Version : String
  Uptime : Nat
  Time : Nat
  CurrConnections : Nat
  TotalConnections : Nat
  CurrItems : Nat
  TotalItems : Nat
  CmdGet : Nat
  CmdSet : Nat
  Queues : List (String × Queue)
deriving DecidableEq

/-- The per-endpoint report as initialised by `StatsServers`
(stats.go lines 120–122): `new(ServerStats)` with fresh empty maps. -/
def newServerStats : ServerStats := ⟨none, [], [], "", 0, 0, 0, 0, 0, 0, 0, 0, []⟩

/-- `bytes.Split` on a one-byte separator (stats.go line 161), accumulator
style; `splitOnChar sep l []` yields the separated fields. -/
def splitOnChar (sep : Char) : List Char → List Char → List (List Char)
  | [], acc => [acc.reverse]
  | c :: rest, acc =>
    if c = sep then acc.reverse :: splitOnChar sep rest []
    else splitOnChar sep rest (c :: acc)

/-- Capitalisation of one underscore-separated segment of `toCamel`
(stats.go lines 274–288): first character upper-cased, rest copied. -/
def capitalizeSeg : List Char → List Char
  | [] => []
  | c :: rest => Char.toUpper c :: rest

/-- `toCamel` (stats.go lines 255–290), segment-wise: Go's single pass over
the `_`-separated segments capitalises each nonempty segment's first byte
and drops the underscores, which is exactly
`join (map capitalizeSeg (split _ s))` (empty segments contribute nothing). -/
def toCamelList (l : List Char) : List Char :=
  List.flatten ((splitOnChar '_' l []).map capitalizeSeg)

/-- `strings.Replace(s, pat, rep, 1)` (used by `parseStatQueue`,
stats.go line 207): replace the first occurrence only. -/
def replaceFirstList (pat rep : List Char) : List Char → List Char
  | [] => if List.isPrefixOf pat [] then rep else []
  | c :: rest =>
    if List.isPrefixOf pat (c :: rest) then rep ++ (c :: rest).drop pat.length
    else c :: replaceFirstList pat rep rest

/-- `parseStatQueue` (stats.go lines 206–208): strip the first `queue_` and
the first occurrence of the suffix. -/
def parseStatQueueList (stat suffix : List Char) : List Char :=
  replaceFirstList suffix [] (replaceFirstList ("queue_".data) [] stat)

/-- `strconv.ParseUint(value, 10, bits)`: decimal digits only, nonempty,
below `2^bits`; `none` is the error case. -/
def parseUintBitsList (bits : Nat) (l : List Char) : Option Nat :=
  if l ≠ [] ∧ l.all (fun c => c.isDigit) then
    let v := l.foldl (fun acc c => acc * 10 + (c.toNat - 48)) 0
    if v < 2 ^ bits then some v else none
  else none

/-- The parse-error message of `parseSetStatValue` (stats.go lines 230, 236,
242): `"unable to parse uint value " + stat + ":" + err.Error()`, with
`strconv`'s own message text abstracted away after the colon. -/
def parseUintErr (stat : List Char) : StatErr :=
  .parseError ("unable to parse uint value " ++ String.mk stat ++ ":")

/-- `parseSetStatValue` (stats.go lines 223–253): reflection dispatch on the
CamelCased stat name over `ServerStats`'s fields.  The string field
`Version` is set directly; the `uint32` fields (`Uptime`, `Time`,
`CurrConnections`, `TotalConnections`) and `uint64` fields (`CurrItems`,
`TotalItems`, `CmdGet`, `CmdSet`) parse the value with the matching bit
width; every other name — absent fields as well as `ServerErr` (interface
kind), `Errs` (slice), `UnknownStats` and `Queues` (maps), none of which
are `reflect` kinds the switch handles — falls into the `default` case and
yields `errUnknownStat`.  (`ServerStats` has no `float64` or `bool` fields,
so those switch arms are unreachable and have no counterpart here.) -/
def parseSetStatValue (server : ServerStats) (stat value : List Char) :
    ServerStats × Option StatErr :=
  match String.mk (toCamelList stat) with
  | "Version" => ({ server with Version := String.mk value }, none)
  | "Uptime" =>
    match parseUintBitsList 32 value with
    | none => (server, some (parseUintErr stat))
    | some v => ({ server with Uptime := v }, none)
  | "Time" =>
    match parseUintBitsList 32 value with
    | none => (server, some (parseUintErr stat))
    | some v => ({ server with Time := v }, none)
  | "CurrConnections" =>
    match parseUintBitsList 32 value with
    | none => (server, some (parseUintErr stat))
    | some v => ({ server with CurrConnections := v }, none)
  | "TotalConnections" =>
    match parseUintBitsList 32 value with
    | none => (server, some (parseUintErr stat))
    | some v => ({ server with TotalConnections := v }, none)
  | "CurrItems" =>
    match parseUintBitsList 64 value with
    | none => (server, some (parseUintErr stat))
    | some v => ({ server with CurrItems := v }, none)
  | "TotalItems" =>
    match parseUintBitsList 64 value with
    | none => (server, some (parseUintErr stat))
    | some v => ({ server with TotalItems := v }, none)
  | "CmdGet" =>
    match parseUintBitsList 64 value with
    | none => (server, some (parseUintErr stat))
    | some v => ({ server with CmdGet := v }, none)
  | "CmdSet" =>
    match parseUintBitsList 64 value with
    | none => (server, some (parseUintErr stat))
    | some v => ({ server with CmdSet := v }, none)
  | _ => (server, some .unknownStat)

/-- `findOrCreateQueue` (stats.go lines 210–218): return the existing queue
record or insert `&Queue{Name: queue}`. -/
def findOrCreateQueue (server : ServerStats) (q : String) : ServerStats :=
  if (server.Queues.lookup q).isSome then server
  else { server with Queues := server.Queues ++ [(q, ⟨q, 0, 0, 0⟩)] }

/-- The through-pointer update `StatsQueue.<field> = v` on the record
returned by `findOrCreateQueue` (stats.go lines 177, 185, 193). -/
def updateQueue (server : ServerStats) (q : String) (f : Queue → Queue) : ServerStats :=
  { server with Queues := server.Queues.map (fun p => if p.1 = q then (p.1, f p.2) else p) }

/-- Go map assignment `m[key] = val`: overwrite or insert. -/
def mapSet (m : List (String × String)) (key val : String) : List (String × String) :=
  if (m.lookup key).isSome then m.map (fun p => if p.1 = key then (p.1, val) else p)
  else m ++ [(key, val)]

/-- One queue-scoped sub-counter line (stats.go lines 170–194): derive the
queue name, create its record on first reference, then parse the value —
on parse failure the enclosing closure returns the error (second component
`true`, aborting the line loop with `ServerErr` set, the queue record
already created); on success update the addressed sub-counter in place. -/
def queueLineStep (server : ServerStats) (name : List Char) (suffix : String)
    (value : List Char) (upd : Queue → Nat → Queue) : ServerStats × Bool :=
  let q := String.mk (parseStatQueueList name suffix.data)
  let server' := findOrCreateQueue server q
  match parseUintBitsList 64 value with
  | none =>
    ({ server' with
        ServerErr := some ("unable to parse uint value " ++ String.mk value ++ ":") }, true)
  | some v => (updateQueue server' q (fun qu => upd qu v), false)

/-- The `resultEnd` terminator of a stats response (referenced at
stats.go line 157; defined in the memcache package as the protocol's
`"END\r\n"` end marker). -/
def resultEnd : String := "END\r\n"

/-- `tkns[i]` (stats.go line 162); well-formed `STAT <name> <value>` lines
always have both tokens. -/
def getTkn (tkns : List (List Char)) (i : Nat) : List Char := tkns.getD i []

/-- The line loop of `statsFromAddr` (stats.go lines 143–204) applied to the
raw response lines: stop with `ServerErr = nil` at the end marker (an
exhausted stream without it is a read error); otherwise strip `STAT ` and
the trailing `\r\n` (`line[5:len(line)-2]`), split on the space, and apply
`parseSetStatValue` / the `queue_`-prefix handling / the unknown-stat map
exactly as in the source.  Non-`errUnknownStat` parse errors are appended
to `Errs` and parsing continues; a bad queue-counter value aborts the loop
through the closure's `return` with `ServerErr` set. -/
def processStatsLines : ServerStats → List String → ServerStats
  | server, [] => { server with ServerErr := some "EOF" }
  | server, line :: rest =>
    if line = resultEnd then { server with ServerErr := none }
    else
      let body := (line.data.drop 5).take (line.data.length - 7)
      let tkns := splitOnChar ' ' body []
      let name := getTkn tkns 0
      let value := getTkn tkns 1
      match parseSetStatValue server name value with
      | (server', none) => processStatsLines server' rest
      | (server', some (.parseError msg)) =>
        processStatsLines { server' with Errs := server'.Errs ++ [msg] } rest
      | (server', some .unknownStat) =>
        if List.isPrefixOf "queue_".data name then
          if List.isSuffixOf "_open_transactions".data name then
            let step := queueLineStep server' name "_open_transactions" value
              (fun qu v => { qu with OpenTransactions := v })
            if step.2 then step.1 else processStatsLines step.1 rest
          else if List.isSuffixOf "_items".data name then
            let step := queueLineStep server' name "_items" value
              (fun qu v => { qu with Items := v })
            if step.2 then step.1 else processStatsLines step.1 rest
          else if List.isSuffixOf "_waiters".data name then
            let step := queueLineStep server' name "_waiters" value
              (fun qu v => { qu with Waiters := v })
            if step.2 then step.1 else processStatsLines step.1 rest
          else processStatsLines server' rest
        else
          processStatsLines
            { server' with
                UnknownStats := mapSet server'.UnknownStats (String.mk name) (String.mk value) }
            rest

/-- The four raw stats lines of claim C9, followed by the end marker. -/
def sampleStatsLines : List String :=
  ["STAT queue_foo_items 3\r\n", "STAT queue_foo_waiters 1\r\n",
   "STAT version 1.4.2\r\n", "STAT weird_thing 9\r\n", "END\r\n"]

/-- C9: parsing `STAT queue_foo_items 3`, `STAT queue_foo_waiters 1`,
`STAT version 1.4.2`, `STAT weird_thing 9` and the end marker yields a
queue entry `foo` with Items 3, Waiters 1, OpenTransactions 0, the scalar
`Version = "1.4.2"`, and `weird_thing ↦ 9` in the unknown-stats map; and a
queue record is created on first reference whichever sub-counter arrives
first (a lone `queue_bar_waiters` line creates `bar`). -/
theorem C9_stats_aggregation :
    (processStatsLines newServerStats sampleStatsLines).Queues.lookup "foo" =
        some ⟨"foo", 3, 1, 0⟩ ∧
      (processStatsLines newServerStats sampleStatsLines).Version = "1.4.2" ∧
      (processStatsLines newServerStats sampleStatsLines).UnknownStats.lookup "weird_thing" =
        some "9" ∧
      (processStatsLines newServerStats
          ["STAT queue_bar_waiters 7\r\n", "END\r\n"]).Queues.lookup "bar" =
        some ⟨"bar", 0, 7, 0⟩ := by
  refine ⟨?_, ?_, ?_, ?_⟩ <;> decide

end DarnerQueue
